import Mathlib

/-!
# The messaging panel of `src/main.cpp`

`NetworkWindow()` is called once per rendered frame.  Its function-static
variables are the panel state; the widgets (buttons, text fields) and the
results of the ZeroMQ calls are the inputs of the frame.

Modelling conventions.
* A `std::string` is a Lean `String`, one character per byte.
* A ZeroMQ call either returns or throws `zmq::error_t`; what it does is an
  input of the frame (`CallResult`, `SendResult`, `RecvResult`).  Memory
  allocation (`std::string`, `zmq::message_t`) is taken to succeed.
* Every handler returns the new panel state together with the socket calls it
  issued, in program order.
-/

namespace ChatPanel

/-! ## Data model -/

/-- The cap of the log, `static const int MAX_MESSAGES = 10;`. -/
def MAX_MESSAGES : Nat := 10

/-- The function-static variables of `NetworkWindow` that the handlers read and
write: the log and the three flags. -/
structure Panel where
  messageHistory : List String
  clientConnected : Bool
  serverBound : Bool
  waitingForReply : Bool
deriving DecidableEq, Repr

/-- The static initialisers: empty log, all three flags false. -/
def Panel.init : Panel :=
  { messageHistory := [], clientConnected := false, serverBound := false,
    waitingForReply := false }

/-- A ZeroMQ call that returns nothing: it returns, or throws `zmq::error_t`
whose `what()` is the carried text. -/
inductive CallResult where
  | ok
  | threw (what : String)
deriving DecidableEq, Repr

/-- Result of `socket_t::send(msg, send_flags::dontwait)`: the number of bytes
queued, an empty optional (`EAGAIN`: the message could not be queued), or a
thrown `zmq::error_t`. -/
inductive SendResult where
  | sent (bytes : Nat)
  | again
  | threw (what : String)
deriving DecidableEq, Repr

/-- Result of `socket_t::recv(msg, recv_flags::dontwait)`: a message with its
payload, an empty optional (nothing available), or a thrown `zmq::error_t`. -/
inductive RecvResult where
  | got (payload : String)
  | again
  | threw (what : String)
deriving DecidableEq, Repr

/-- The socket calls the panel issues. -/
inductive SockOp where
  | clientClose
  | clientCreate
  | clientConnect (address : String)
  | clientSend (payload : String)
  | clientRecv
  | serverClose
  | serverCreate
  | serverBind (address : String)
  | serverSetRcvTimeo (ms : Nat)
  | serverRecv
  | serverGetLastEndpoint
  | serverSend (payload : String)
deriving DecidableEq, Repr

/-- Everything one call of `NetworkWindow()` reads from outside: the widget
values of this frame and what each ZeroMQ call does if it is reached. -/
structure Frame where
  /-- Content of the `ip` buffer after `InputText("##ip", ...)`. -/
  ip : String
  /-- Value of `port` after `InputInt("Port", ...)`. -/
  port : Int
  /-- Content of the `message` buffer after `InputText("##message", ...)`. -/
  message : String
  /-- Whether `Button("Connect as Client")` returns true. -/
  connectPressed : Bool
  /-- Whether `Button("Start Server")` returns true. -/
  startPressed : Bool
  /-- Whether `Button("Send")` returns true. -/
  sendPressed : Bool
  /-- Whether `Button("Clear History")` returns true. -/
  clearPressed : Bool
  /-- What `client = zmq::socket_t(context, ZMQ_REQ)` does. -/
  clientRecreate : CallResult
  /-- What `client.connect(address)` does. -/
  connectResult : CallResult
  /-- What `server = zmq::socket_t(context, ZMQ_REP)` does. -/
  serverRecreate : CallResult
  /-- What `server.bind(address)` does. -/
  bindResult : CallResult
  /-- What `server.set(zmq::sockopt::rcvtimeo, 10)` does. -/
  setTimeoResult : CallResult
  /-- What `client.send(zmq_msg, dontwait)` returns. -/
  sendResult : SendResult
  /-- What `client.recv(zmq_msg, dontwait)` returns. -/
  replyRecv : RecvResult
  /-- What `server.recv(zmq_msg, dontwait)` returns. -/
  requestRecv : RecvResult
  /-- What `server.getsockopt(ZMQ_LAST_ENDPOINT, ...)` does: the C string it
  writes to `endpoint`, or `none` when the call throws. -/
  lastEndpoint : Option String
  /-- What `server.send(ack_msg, dontwait)` returns. -/
  ackResult : SendResult
deriving DecidableEq, Repr

/-! ## The capped log -/

/-- The pattern repeated after every insertion:
`messageHistory.push_back(e); if (messageHistory.size() > MAX_MESSAGES)
messageHistory.erase(messageHistory.begin());` -/
def pushMessage (history : List String) (e : String) : List String :=
  let pushed := history ++ [e]
  if pushed.length > MAX_MESSAGES then pushed.tail else pushed

/-! ## Strings -/

/-- Search of `std::string::find(pat)` over the characters from position `pos`
on: the lowest position at which `pat` occurs, `none` for `npos`. -/
def findFrom (pat : List Char) : List Char → Nat → Option Nat
  | [], pos => if pat.isEmpty then some pos else none
  | c :: cs, pos =>
    if pat.isPrefixOf (c :: cs) then some pos else findFrom pat cs (pos + 1)

/-- The call `s.find(pat)`. -/
def find (s pat : String) : Option Nat :=
  findFrom pat.data s.data 0

/-- The call `s.substr(pos)` for `pos <= s.size()`. -/
def substr (s : String) (pos : Nat) : String :=
  String.mk (s.data.drop pos)

/-- The value of `sourceInfo` when the log entry is built: the endpoint with
everything up to and including the first `://` removed, the endpoint itself
when it has no `://`, and `local` when the query throws. -/
def sourceInfo (endpoint : Option String) : String :=
  match endpoint with
  | none => "local"
  | some e =>
    match find e "://" with
    | some pos => substr e (pos + 3)
    | none => e

/-! ## The handlers, in the order `NetworkWindow` runs them -/

/-- Lines 38-55: the `try`/`catch` under `if (ImGui::Button("Connect as Client"))`. -/
def connectHandler (s : Panel) (f : Frame) : Panel × List SockOp :=
  if f.connectPressed then
    let address := "tcp://" ++ f.ip ++ ":" ++ toString f.port
    let caught (what : String) : Panel :=
      { s with messageHistory := pushMessage s.messageHistory ("Connection error: " ++ what) }
    let connect (ops : List SockOp) : Panel × List SockOp :=
      match f.connectResult with
      | .ok =>
        ({ s with clientConnected := true, waitingForReply := false },
          ops ++ [.clientConnect address])
      | .threw what => (caught what, ops ++ [.clientConnect address])
    if s.clientConnected then
      match f.clientRecreate with
      | .ok => connect [.clientClose, .clientCreate]
      | .threw what => (caught what, [.clientClose, .clientCreate])
    else connect []
  else (s, [])

/-- Lines 58-75: the `try`/`catch` under `if (ImGui::Button("Start Server"))`. -/
def startHandler (s : Panel) (f : Frame) : Panel × List SockOp :=
  if f.startPressed then
    let address := "tcp://*:" ++ toString f.port
    let caught (what : String) : Panel :=
      { s with messageHistory := pushMessage s.messageHistory ("Bind error: " ++ what) }
    let bind (ops : List SockOp) : Panel × List SockOp :=
      match f.bindResult with
      | .ok =>
        match f.setTimeoResult with
        | .ok =>
          ({ s with serverBound := true },
            ops ++ [.serverBind address, .serverSetRcvTimeo 10])
        | .threw what => (caught what, ops ++ [.serverBind address, .serverSetRcvTimeo 10])
      | .threw what => (caught what, ops ++ [.serverBind address])
    if s.serverBound then
      match f.serverRecreate with
      | .ok => bind [.serverClose, .serverCreate]
      | .threw what => (caught what, [.serverClose, .serverCreate])
    else bind []
  else (s, [])

/-- Lines 83-101: the `try`/`catch` under `if (ImGui::Button("Send") &&
clientConnected && !waitingForReply)`.  The value returned by `client.send`
is discarded, so both non-throwing results take the same path. -/
def sendHandler (s : Panel) (f : Frame) : Panel × List SockOp :=
  if f.sendPressed && s.clientConnected && !s.waitingForReply then
    match f.sendResult with
    | .sent _ =>
      ({ s with waitingForReply := true,
                messageHistory := pushMessage s.messageHistory ("[SENT] " ++ f.message) },
        [.clientSend f.message])
    | .again =>
      ({ s with waitingForReply := true,
                messageHistory := pushMessage s.messageHistory ("[SENT] " ++ f.message) },
        [.clientSend f.message])
    | .threw what =>
      ({ s with messageHistory := pushMessage s.messageHistory ("Send error: " ++ what) },
        [.clientSend f.message])
  else (s, [])

/-- Lines 104-115: the client polls for the reply. -/
def replyPoll (s : Panel) (f : Frame) : Panel × List SockOp :=
  if s.waitingForReply && s.clientConnected then
    match f.replyRecv with
    | .got _ => ({ s with waitingForReply := false }, [.clientRecv])
    | .again => (s, [.clientRecv])
    | .threw _ => (s, [.clientRecv])
  else (s, [])

/-- Lines 120-159: the server polls for a request, logs it and acknowledges
it.  A throw of the acknowledging `send` lands in the empty `catch`, after the
log entry has been appended. -/
def serverPoll (s : Panel) (f : Frame) : Panel × List SockOp :=
  if s.serverBound then
    match f.requestRecv with
    | .got received =>
      let entry := "[RECEIVED from " ++ sourceInfo f.lastEndpoint ++ "] " ++ received
      ({ s with messageHistory := pushMessage s.messageHistory entry },
        [.serverRecv, .serverGetLastEndpoint, .serverSend "ACK"])
    | .again => (s, [.serverRecv])
    | .threw _ => (s, [.serverRecv])
  else (s, [])

/-- Lines 174-176: `if (ImGui::Button("Clear History")) messageHistory.clear();` -/
def clearHandler (s : Panel) (f : Frame) : Panel × List SockOp :=
  if f.clearPressed then ({ s with messageHistory := [] }, []) else (s, [])

/-! ## One frame and runs of frames -/

/-- The six steps of a frame in program order. -/
def handlers : List (Panel → Frame → Panel × List SockOp) :=
  [connectHandler, startHandler, sendHandler, replyPoll, serverPoll, clearHandler]

/-- Runs the given steps one after another on the same frame input; returns the
final state, the state after each step, and all socket calls issued. -/
def runSteps (f : Frame) :
    List (Panel → Frame → Panel × List SockOp) → Panel → Panel × List Panel × List SockOp
  | [], s => (s, [], [])
  | h :: hs, s =>
    let r := h s f
    let rest := runSteps f hs r.1
    (rest.1, r.1 :: rest.2.1, r.2 ++ rest.2.2)

/-- One call of `NetworkWindow()`: the state it leaves. -/
def NetworkWindow (s : Panel) (f : Frame) : Panel :=
  (runSteps f handlers s).1

/-- The states after each of the six steps of one frame. -/
def stages (s : Panel) (f : Frame) : List Panel :=
  (runSteps f handlers s).2.1

/-- The socket calls issued during one frame. -/
def frameOps (s : Panel) (f : Frame) : List SockOp :=
  (runSteps f handlers s).2.2

/-- The state after a sequence of frames. -/
def run (s : Panel) (fs : List Frame) : Panel :=
  fs.foldl NetworkWindow s

/-- The states the panel passes through after `s` during a sequence of frames,
step by step. -/
def later : Panel → List Frame → List Panel
  | _, [] => []
  | s, f :: fs => stages s f ++ later (NetworkWindow s f) fs

/-- Every state of a run, step by step, the starting state included. -/
def trace (s : Panel) (fs : List Frame) : List Panel :=
  s :: later s fs

/-- The socket calls issued during a sequence of frames. -/
def runOps : Panel → List Frame → List SockOp
  | _, [] => []
  | s, f :: fs => frameOps s f ++ runOps (NetworkWindow s f) fs

/-- The test `if (result)` on the optional returned by `recv`. -/
def RecvResult.hasMessage : RecvResult → Bool
  | .got _ => true
  | .again => false
  | .threw _ => false


/-- Whether the entry `e` begins with the text `p`. -/
def beginsWith (p e : String) : Bool :=
  p.data.isPrefixOf e.data

/-- Number of log entries tagged as sent. -/
def sentCount (log : List String) : Nat :=
  log.countP (beginsWith "[SENT] ")

/-- Whether a call returned without throwing. -/
def CallResult.succeeded : CallResult → Bool
  | .ok => true
  | .threw _ => false

/-- Whether a press of Connect as Client on an already connected panel reaches
the end of its `try` block in this frame: the button is pressed, the socket is
recreated and `connect` returns. -/
def reconnectSucceeds (f : Frame) : Bool :=
  f.connectPressed && f.clientRecreate.succeeded && f.connectResult.succeeded

/-- The steps of a frame that follow the Send handler. -/
def afterSendSteps : List (Panel → Frame → Panel × List SockOp) :=
  [replyPoll, serverPoll, clearHandler]

/-- Whether a socket call is a `send` on the server socket. -/
def SockOp.isServerSend : SockOp → Bool
  | .serverSend _ => true
  | _ => false

/-- Whether a socket call is a `send` on the client socket. -/
def SockOp.isClientSend : SockOp → Bool
  | .clientSend _ => true
  | _ => false

/-- The label as the specification words it: the part of `e` after the first
occurrence of `://`, and `e` itself when `e` contains no `://`. -/
def IsLabel (e label : String) : Prop :=
  (∃ before, e = before ++ "://" ++ label ∧
      ∀ b l, e = b ++ "://" ++ l → before.length ≤ b.length) ∨
    ((∀ b l, e ≠ b ++ "://" ++ l) ∧ label = e)

/-- The state the amended C4 is about: a reply is outstanding on a connected
client, and the log holds at most `N` entries tagged as sent. -/
def Awaiting (N : Nat) (t : Panel) : Prop :=
  t.waitingForReply = true ∧ t.clientConnected = true ∧ sentCount t.messageHistory ≤ N

/-- Whether a `send` queued its message: it returned a byte count, neither the
empty result nor a throw. -/
def SendResult.queued : SendResult → Bool
  | .sent _ => true
  | .again => false
  | .threw _ => false

/-- The replies that leave through the server socket during the server poll of
a frame: the payload of every `send` the poll issues on the server socket,
kept when `server.send(ack_msg, dontwait)` queued it. -/
def repliesSent (s : Panel) (f : Frame) : List String :=
  (serverPoll s f).2.filterMap fun o =>
    match o with
    | .serverSend payload => if f.ackResult.queued then some payload else none
    | _ => none

/-- A bound server with an empty log. -/
def Panel.bound : Panel :=
  { messageHistory := [], clientConnected := false, serverBound := true,
    waitingForReply := false }

/-! ## Sample inputs -/

/-- A frame in which nothing happens: the widgets hold the defaults of the
source (`127.0.0.1`, `5555`, empty message), no button is pressed, every call
that is reached succeeds and no message is waiting on either socket. -/
def Frame.idle : Frame :=
  { ip := "127.0.0.1", port := 5555, message := "",
    connectPressed := false, startPressed := false, sendPressed := false,
    clearPressed := false,
    clientRecreate := .ok, connectResult := .ok, serverRecreate := .ok,
    bindResult := .ok, setTimeoResult := .ok, sendResult := .sent 0,
    replyRecv := .again, requestRecv := .again, lastEndpoint := none,
    ackResult := .sent 3 }

/-- A frame that appends two entries: the client connects and sends `hello`,
while starting the server fails. -/
def Frame.busy : Frame :=
  { Frame.idle with
    message := "hello", connectPressed := true, startPressed := true,
    sendPressed := true, bindResult := .threw "Address already in use",
    sendResult := .sent 5 }

/-- A log of exactly ten entries. -/
def fullLog : List String :=
  ["m0", "m1", "m2", "m3", "m4", "m5", "m6", "m7", "m8", "m9"]

/-- The client connects and sends `first`; no reply arrives in this frame. -/
def Frame.sendFirst : Frame :=
  { Frame.idle with
    message := "first", connectPressed := true, sendPressed := true, sendResult := .sent 5 }

/-- Connect as Client and Send are pressed again with message `second`; still
no reply arrives. -/
def Frame.reconnectSendSecond : Frame :=
  { Frame.idle with
    message := "second", connectPressed := true, sendPressed := true, sendResult := .sent 6 }

/-- Send is pressed again and a reconnect fails; no reply arrives. -/
def Frame.pressAgain : Frame :=
  { Frame.idle with
    message := "second", connectPressed := true, sendPressed := true,
    connectResult := .threw "Invalid argument", sendResult := .sent 6 }

/-- The example of the specification, first frame: Start Server and Connect as
Client are pressed with the default fields `127.0.0.1` and `5555`. -/
def Frame.startBoth : Frame :=
  { Frame.idle with connectPressed := true, startPressed := true }

/-- The example of the specification, second frame: `hello` is sent. -/
def Frame.sendHello : Frame :=
  { Frame.idle with message := "hello", sendPressed := true, sendResult := .sent 5 }

/-- The example of the specification, third frame: the server receives `hello`
and its socket reports `endpoint` as its last endpoint. -/
def Frame.receiveHello (endpoint : String) : Frame :=
  { Frame.idle with
    message := "hello", requestRecv := .got "hello", lastEndpoint := some endpoint }

/-- A connected client that is not awaiting a reply, with an empty log. -/
def Panel.ready : Panel :=
  { messageHistory := [], clientConnected := true, serverBound := false,
    waitingForReply := false }

/-- A panel with a full log, connected, bound and awaiting a reply. -/
def Panel.full : Panel :=
  { messageHistory := fullLog, clientConnected := true, serverBound := true,
    waitingForReply := true }

/-- The last `k` elements of a list, in their original order. -/
def lastN (k : Nat) (l : List String) : List String :=
  l.drop (l.length - k)

/-! ## Lemmas on the capped log -/

theorem pushMessage_length_le (h : List String) (e : String)
    (hh : h.length ≤ MAX_MESSAGES) : (pushMessage h e).length ≤ MAX_MESSAGES := by
  unfold pushMessage
  simp only [MAX_MESSAGES] at *
  split <;> simp at * <;> omega

theorem pushMessage_eq_drop (h : List String) (e : String)
    (hh : h.length ≤ MAX_MESSAGES) :
    pushMessage h e = (h ++ [e]).drop (h.length + 1 - MAX_MESSAGES) := by
  unfold pushMessage
  simp only [MAX_MESSAGES] at *
  split
  · rename_i hlt
    simp at hlt
    have h10 : h.length = 10 := by omega
    rw [h10]
    cases h with
    | nil => simp at h10
    | cons a t => simp
  · rename_i hlt
    simp at hlt
    have h0 : h.length + 1 - 10 = 0 := by omega
    rw [h0]
    simp

/-! ## Lemmas on the steps of a frame -/

theorem handlers_split :
    handlers = [connectHandler, startHandler, sendHandler] ++ afterSendSteps := rfl

theorem NetworkWindow_eq (s : Panel) (f : Frame) :
    NetworkWindow s f =
      (runSteps f afterSendSteps
        (sendHandler (startHandler (connectHandler s f).1 f).1 f).1).1 := rfl

/-! ## Lemmas on strings -/

theorem beginsWith_append (p r : String) : beginsWith p (p ++ r) = true := by
  simp [beginsWith, String.data_append, List.isPrefixOf_iff_prefix]

theorem connection_error_not_sent (w : String) :
    beginsWith "[SENT] " ("Connection error: " ++ w) = false := by
  simp only [beginsWith, String.data_append]
  rfl

theorem bind_error_not_sent (w : String) :
    beginsWith "[SENT] " ("Bind error: " ++ w) = false := by
  simp only [beginsWith, String.data_append]
  rfl

theorem send_error_not_sent (w : String) :
    beginsWith "[SENT] " ("Send error: " ++ w) = false := by
  simp only [beginsWith, String.data_append]
  rfl

theorem received_not_sent (w : String) :
    beginsWith "[SENT] " ("[RECEIVED from " ++ w) = false := by
  simp only [beginsWith, String.data_append]
  rfl

theorem findFrom_none (pat : List Char) (l : List Char) (k : Nat)
    (h : findFrom pat l k = none) : ∀ pre post, l ≠ pre ++ pat ++ post := by
  induction l generalizing k with
  | nil =>
    intro pre post hl
    have hp : pat = [] := by
      have := congrArg List.length hl
      simp at this
      exact List.eq_nil_of_length_eq_zero (by omega)
    simp [findFrom, hp] at h
  | cons c cs ih =>
    intro pre post hl
    unfold findFrom at h
    split at h
    · simp at h
    · rename_i hnp
      cases pre with
      | nil =>
        apply hnp
        rw [List.isPrefixOf_iff_prefix]
        exact ⟨post, by simpa using hl.symm⟩
      | cons a pre2 =>
        simp only [List.cons_append, List.cons.injEq] at hl
        exact ih (k + 1) h pre2 post hl.2

theorem findFrom_some (pat : List Char) (l : List Char) (k n : Nat)
    (h : findFrom pat l k = some n) :
    ∃ pre post, l = pre ++ pat ++ post ∧ n = k + pre.length ∧
      ∀ pre2 post2, l = pre2 ++ pat ++ post2 → pre.length ≤ pre2.length := by
  induction l generalizing k with
  | nil =>
    unfold findFrom at h
    split at h
    · rename_i hp
      have hp2 : pat = [] := by simpa using hp
      simp only [Option.some.injEq] at h
      exact ⟨[], [], by simp [hp2], by simp [h], by simp⟩
    · simp at h
  | cons c cs ih =>
    unfold findFrom at h
    split at h
    · rename_i hp
      rw [List.isPrefixOf_iff_prefix] at hp
      obtain ⟨post, hpost⟩ := hp
      simp only [Option.some.injEq] at h
      exact ⟨[], post, by simpa using hpost.symm, by simp [h], by simp⟩
    · rename_i hnp
      obtain ⟨pre, post, hl, hn, hmin⟩ := ih (k + 1) h
      refine ⟨c :: pre, post, by simp [hl], by simp [hn]; omega, ?_⟩
      intro pre2 post2 hl2
      cases pre2 with
      | nil =>
        exfalso
        apply hnp
        rw [List.isPrefixOf_iff_prefix]
        exact ⟨post2, by simpa using hl2.symm⟩
      | cons a pre3 =>
        simp only [List.cons_append, List.cons.injEq] at hl2
        have := hmin pre3 post2 hl2.2
        simp only [List.length_cons]
        omega

theorem sourceInfo_isLabel (e : String) : IsLabel e (sourceInfo (some e)) := by
  unfold sourceInfo
  simp only
  split
  · rename_i pos hpos
    unfold find at hpos
    obtain ⟨pre, post, hl, hn, hmin⟩ := findFrom_some _ _ _ _ hpos
    left
    refine ⟨String.mk pre, ?_, ?_⟩
    · apply String.ext
      have h3 : "://".data.length = 3 := rfl
      simp only [substr, String.data_append, hl, hn, Nat.zero_add]
      rw [List.append_assoc, show pre.length + 3 = pre.length + "://".data.length from by rw [h3],
        ← List.length_append, ← List.append_assoc, List.drop_left]
    · intro b l hbl
      have hd := congrArg String.data hbl
      simp only [String.data_append] at hd
      exact hmin b.data l.data hd
  · rename_i hnone
    unfold find at hnone
    right
    refine ⟨?_, rfl⟩
    intro b l hbl
    have hd := congrArg String.data hbl
    simp only [String.data_append] at hd
    exact findFrom_none _ _ _ hnone b.data l.data hd

theorem pushMessage_getLast (h : List String) (e : String) :
    (pushMessage h e).getLast? = some e := by
  unfold pushMessage
  simp only [MAX_MESSAGES]
  split
  · rename_i hlt
    cases h with
    | nil => simp at hlt
    | cons a t => simp
  · simp

theorem sentCount_pushMessage_le (h : List String) (e : String)
    (he : beginsWith "[SENT] " e = false) : sentCount (pushMessage h e) ≤ sentCount h := by
  have hc : sentCount (h ++ [e]) = sentCount h := by
    simp [sentCount, List.countP_append, List.countP_cons, he]
  unfold pushMessage
  simp only
  split
  · rw [← hc]
    exact List.Sublist.countP_le _ (List.tail_sublist _)
  · exact le_of_eq hc

/-! ## Invariants along the steps of a frame and along runs -/

theorem runSteps_inv (P : Panel → Prop) (R : SockOp → Prop) (f : Frame)
    (hs : List (Panel → Frame → Panel × List SockOp))
    (hP : ∀ h ∈ hs, ∀ t, P t → P (h t f).1 ∧ ∀ o ∈ (h t f).2, R o)
    (s : Panel) (h0 : P s) :
    P (runSteps f hs s).1 ∧ (∀ t ∈ (runSteps f hs s).2.1, P t) ∧
      ∀ o ∈ (runSteps f hs s).2.2, R o := by
  induction hs generalizing s with
  | nil => simp [runSteps, h0]
  | cons h hs ih =>
    have hh := hP h (List.mem_cons_self _ _) s h0
    have ih2 := ih (fun g hg => hP g (List.mem_cons_of_mem _ hg)) (h s f).1 hh.1
    simp only [runSteps, List.mem_cons, List.mem_append]
    refine ⟨ih2.1, ?_, ?_⟩
    · rintro t (rfl | ht)
      · exact hh.1
      · exact ih2.2.1 t ht
    · rintro o (ho | ho)
      · exact hh.2 o ho
      · exact ih2.2.2 o ho

theorem run_inv (P : Panel → Prop) (R : SockOp → Prop) (Q : Frame → Prop)
    (hstep : ∀ f, Q f → ∀ h ∈ handlers, ∀ t, P t → P (h t f).1 ∧ ∀ o ∈ (h t f).2, R o)
    (s : Panel) (h0 : P s) (fs : List Frame) (hfs : ∀ f ∈ fs, Q f) :
    P (run s fs) ∧ (∀ t ∈ later s fs, P t) ∧ ∀ o ∈ runOps s fs, R o := by
  induction fs generalizing s with
  | nil => simp [run, later, runOps, h0]
  | cons f fs ih =>
    have hf := runSteps_inv P R f handlers (hstep f (hfs f (List.mem_cons_self _ _))) s h0
    have ih2 := ih (NetworkWindow s f) hf.1 (fun g hg => hfs g (List.mem_cons_of_mem _ hg))
    simp only [run, List.foldl_cons, later, runOps, List.mem_append, stages, frameOps]
    refine ⟨ih2.1, ?_, ?_⟩
    · rintro t (ht | ht)
      · exact hf.2.1 t ht
      · exact ih2.2.1 t ht
    · rintro o (ho | ho)
      · exact hf.2.2 o ho
      · exact ih2.2.2 o ho

theorem mem_handlers {h : Panel → Frame → Panel × List SockOp} (hh : h ∈ handlers) :
    h = connectHandler ∨ h = startHandler ∨ h = sendHandler ∨ h = replyPoll ∨
      h = serverPoll ∨ h = clearHandler := by
  simpa [handlers] using hh

theorem handler_cap (f : Frame) (h : Panel → Frame → Panel × List SockOp)
    (hh : h ∈ handlers) (t : Panel) (ht : t.messageHistory.length ≤ MAX_MESSAGES) :
    (h t f).1.messageHistory.length ≤ MAX_MESSAGES := by
  have hp := fun e => pushMessage_length_le t.messageHistory e ht
  rcases mem_handlers hh with rfl | rfl | rfl | rfl | rfl | rfl
  · unfold connectHandler
    repeat' split
    all_goals first | exact ht | exact hp _
  · unfold startHandler
    repeat' split
    all_goals first | exact ht | exact hp _
  · unfold sendHandler
    repeat' split
    all_goals first | exact ht | exact hp _
  · unfold replyPoll
    repeat' split
    all_goals exact ht
  · unfold serverPoll
    repeat' split
    all_goals first | exact ht | exact hp _
  · unfold clearHandler
    repeat' split
    all_goals first | exact ht | simp

theorem foldl_pushMessage (es : List String) (L : List String)
    (hL : L.length ≤ MAX_MESSAGES) :
    es.foldl pushMessage L = (L ++ es).drop (L.length + es.length - MAX_MESSAGES) := by
  induction es generalizing L with
  | nil =>
    have h0 : L.length - MAX_MESSAGES = 0 := by omega
    simp [h0]
  | cons e es ih =>
    have hlen := pushMessage_length_le L e hL
    have heq := pushMessage_eq_drop L e hL
    rw [List.foldl_cons, ih _ hlen, heq]
    have hd : L.length + 1 - MAX_MESSAGES ≤ (L ++ [e]).length := by simp
    rw [← List.drop_append_of_le_length hd, List.drop_drop]
    simp only [List.append_assoc, List.singleton_append, List.length_drop, List.length_append,
      List.length_singleton, List.length_cons, List.length_nil]
    congr 1
    simp only [MAX_MESSAGES] at *
    omega

theorem handler_flags (f : Frame) (h : Panel → Frame → Panel × List SockOp)
    (hh : h ∈ handlers) (t : Panel)
    (ht : t.waitingForReply = true → t.clientConnected = true) :
    (h t f).1.waitingForReply = true → (h t f).1.clientConnected = true := by
  rcases mem_handlers hh with rfl | rfl | rfl | rfl | rfl | rfl
  · unfold connectHandler
    repeat' split
    all_goals simp_all
  · unfold startHandler
    repeat' split
    all_goals simp_all
  · unfold sendHandler
    repeat' split
    all_goals simp_all
  · unfold replyPoll
    repeat' split
    all_goals simp_all
  · unfold serverPoll
    repeat' split
    all_goals simp_all
  · unfold clearHandler
    repeat' split
    all_goals simp_all

theorem handler_keeps_flags (f : Frame) (h : Panel → Frame → Panel × List SockOp)
    (hh : h ∈ handlers) (t : Panel) :
    (t.clientConnected = true → (h t f).1.clientConnected = true) ∧
      (t.serverBound = true → (h t f).1.serverBound = true) := by
  rcases mem_handlers hh with rfl | rfl | rfl | rfl | rfl | rfl
  · unfold connectHandler
    repeat' split
    all_goals simp_all
  · unfold startHandler
    repeat' split
    all_goals simp_all
  · unfold sendHandler
    repeat' split
    all_goals simp_all
  · unfold replyPoll
    repeat' split
    all_goals simp_all
  · unfold serverPoll
    repeat' split
    all_goals simp_all
  · unfold clearHandler
    repeat' split
    all_goals simp_all

theorem connect_awaiting (N : Nat) (f : Frame) (t : Panel)
    (hq : reconnectSucceeds f = false) (ht : Awaiting N t) :
    Awaiting N (connectHandler t f).1 ∧ ∀ o ∈ (connectHandler t f).2, o.isClientSend = false := by
  obtain ⟨hw, hc, hn⟩ := ht
  have hp := fun w => le_trans
    (sentCount_pushMessage_le t.messageHistory _ (connection_error_not_sent w)) hn
  unfold connectHandler
  cases hpr : f.connectPressed <;> cases hr : f.clientRecreate <;>
    cases hcr : f.connectResult <;>
    simp_all [Awaiting, reconnectSucceeds, CallResult.succeeded, SockOp.isClientSend]

theorem start_awaiting (N : Nat) (f : Frame) (t : Panel) (ht : Awaiting N t) :
    Awaiting N (startHandler t f).1 ∧ ∀ o ∈ (startHandler t f).2, o.isClientSend = false := by
  obtain ⟨hw, hc, hn⟩ := ht
  have hp := fun w => le_trans
    (sentCount_pushMessage_le t.messageHistory _ (bind_error_not_sent w)) hn
  unfold startHandler
  cases hpr : f.startPressed <;> cases hr : f.serverRecreate <;>
    cases hcr : f.bindResult <;> cases hst : f.setTimeoResult <;> cases hsb : t.serverBound <;>
    simp_all [Awaiting, SockOp.isClientSend]

theorem send_awaiting (N : Nat) (f : Frame) (t : Panel) (ht : Awaiting N t) :
    Awaiting N (sendHandler t f).1 ∧ ∀ o ∈ (sendHandler t f).2, o.isClientSend = false := by
  have h : sendHandler t f = (t, []) := by
    unfold sendHandler
    simp [ht.1]
  simp [h, ht]

theorem reply_awaiting (N : Nat) (f : Frame) (t : Panel)
    (hq : f.replyRecv.hasMessage = false) (ht : Awaiting N t) :
    Awaiting N (replyPoll t f).1 ∧ ∀ o ∈ (replyPoll t f).2, o.isClientSend = false := by
  obtain ⟨hw, hc, hn⟩ := ht
  unfold replyPoll
  cases hr : f.replyRecv <;>
    simp_all [Awaiting, RecvResult.hasMessage, SockOp.isClientSend]

theorem server_awaiting (N : Nat) (f : Frame) (t : Panel) (ht : Awaiting N t) :
    Awaiting N (serverPoll t f).1 ∧ ∀ o ∈ (serverPoll t f).2, o.isClientSend = false := by
  obtain ⟨hw, hc, hn⟩ := ht
  have hp := fun w => le_trans
    (sentCount_pushMessage_le t.messageHistory _ (received_not_sent w)) hn
  have ha : ∀ a b c : String, "[RECEIVED from " ++ a ++ b ++ c = "[RECEIVED from " ++ (a ++ b ++ c) := by
    intro a b c
    simp [String.append_assoc]
  unfold serverPoll
  cases hr : f.requestRecv <;> cases hsb : t.serverBound <;>
    simp_all [Awaiting, SockOp.isClientSend]

theorem clear_awaiting (N : Nat) (f : Frame) (t : Panel) (ht : Awaiting N t) :
    Awaiting N (clearHandler t f).1 ∧ ∀ o ∈ (clearHandler t f).2, o.isClientSend = false := by
  obtain ⟨hw, hc, hn⟩ := ht
  unfold clearHandler
  cases hpr : f.clearPressed <;> simp_all [Awaiting, sentCount]

theorem handlers_awaiting (N : Nat) (f : Frame)
    (hq : f.replyRecv.hasMessage = false ∧ reconnectSucceeds f = false)
    (h : Panel → Frame → Panel × List SockOp) (hh : h ∈ handlers) (t : Panel)
    (ht : Awaiting N t) :
    Awaiting N (h t f).1 ∧ ∀ o ∈ (h t f).2, o.isClientSend = false := by
  rcases mem_handlers hh with rfl | rfl | rfl | rfl | rfl | rfl
  · exact connect_awaiting N f t hq.2 ht
  · exact start_awaiting N f t ht
  · exact send_awaiting N f t ht
  · exact reply_awaiting N f t hq.1 ht
  · exact server_awaiting N f t ht
  · exact clear_awaiting N f t ht

theorem afterSendSteps_awaiting (N : Nat) (f : Frame)
    (hq : f.replyRecv.hasMessage = false)
    (h : Panel → Frame → Panel × List SockOp) (hh : h ∈ afterSendSteps) (t : Panel)
    (ht : Awaiting N t) :
    Awaiting N (h t f).1 ∧ ∀ o ∈ (h t f).2, o.isClientSend = false := by
  have hh2 : h = replyPoll ∨ h = serverPoll ∨ h = clearHandler := by
    simpa [afterSendSteps] using hh
  rcases hh2 with rfl | rfl | rfl
  · exact reply_awaiting N f t hq ht
  · exact server_awaiting N f t ht
  · exact clear_awaiting N f t ht

/-! ## The claims -/

/-- C1 (log cap invariant): starting from the initial panel state, after every
step of every frame of every run (any buttons, any results of the networking
calls) the log has at most `MAX_MESSAGES = 10` entries; every step appends at
most one entry, so this covers several appends within one frame. -/
theorem log_cap_invariant (fs : List Frame) (t : Panel) (ht : t ∈ trace Panel.init fs) :
    t.messageHistory.length ≤ MAX_MESSAGES := by
  have h0 : Panel.init.messageHistory.length ≤ MAX_MESSAGES := by simp [Panel.init]
  have key := run_inv (fun p => p.messageHistory.length ≤ MAX_MESSAGES) (fun _ => True)
    (fun _ => True) (fun f _ h hh p hp => ⟨handler_cap f h hh p hp, fun _ _ => trivial⟩)
    Panel.init h0 fs (fun _ _ => trivial)
  simp only [trace, List.mem_cons] at ht
  rcases ht with rfl | ht
  · exact h0
  · exact key.2.1 t ht

/-- Witness of C1: six frames that append two entries each (twelve appends)
leave a log of at most ten entries. -/
theorem log_cap_invariant_witness :
    run Panel.init (List.replicate 6 Frame.busy) ∈ trace Panel.init (List.replicate 6 Frame.busy) ∧
      (run Panel.init (List.replicate 6 Frame.busy)).messageHistory.length ≤ MAX_MESSAGES :=
  ⟨by decide,
    log_cap_invariant (List.replicate 6 Frame.busy)
      (run Panel.init (List.replicate 6 Frame.busy)) (by decide)⟩

/-- C2 (FIFO eviction): appending `es` one after another to a log `L` of at
most ten entries leaves the last `min 10 (|L| + |es|)` elements of `L ++ es`
in their original order; appending to a log of exactly ten entries drops
exactly its first entry and puts the new entry last. -/
theorem fifo_eviction (L es : List String) (hL : L.length ≤ MAX_MESSAGES) :
    es.foldl pushMessage L = lastN (min MAX_MESSAGES (L.length + es.length)) (L ++ es) ∧
      ∀ e, L.length = MAX_MESSAGES →
        ∃ oldest rest, L = oldest :: rest ∧ pushMessage L e = rest ++ [e] := by
  constructor
  · rw [foldl_pushMessage es L hL, lastN]
    congr 1
    simp only [List.length_append]
    omega
  · intro e h10
    rw [pushMessage_eq_drop L e hL, h10]
    cases L with
    | nil => simp [MAX_MESSAGES] at h10
    | cons a t => exact ⟨a, t, rfl, by simp [MAX_MESSAGES]⟩

/-- Witness of C2: three entries appended to a full log. -/
theorem fifo_eviction_witness :
    fullLog.length ≤ MAX_MESSAGES ∧
      ["a", "b", "c"].foldl pushMessage fullLog =
        ["m3", "m4", "m5", "m6", "m7", "m8", "m9", "a", "b", "c"] ∧
      ∃ oldest rest, fullLog = oldest :: rest ∧ pushMessage fullLog "a" = rest ++ ["a"] :=
  ⟨by decide,
    (fifo_eviction fullLog ["a", "b", "c"] (by decide)).1.trans (by decide),
    (fifo_eviction fullLog ["a", "b", "c"] (by decide)).2 "a" (by decide)⟩

/-- C3 (Send is disabled when not ready): when `clientConnected` is false or
`waitingForReply` is true, the Send handler issues no socket call and leaves
the whole panel state (log and the three flags) unchanged, whether or not the
button is pressed. -/
theorem send_disabled_noop (s : Panel) (f : Frame)
    (h : s.clientConnected = false ∨ s.waitingForReply = true) :
    sendHandler s f = (s, []) := by
  unfold sendHandler
  rcases h with h | h <;> simp [h]

/-- Witness of C3: Send pressed while a reply is outstanding. -/
theorem send_disabled_noop_witness :
    Frame.busy.sendPressed = true ∧
      sendHandler Panel.full Frame.busy = (Panel.full, []) :=
  ⟨by decide, send_disabled_noop Panel.full Frame.busy (Or.inr rfl)⟩

/-- C8 (the reply poll is silent): the reply poll never touches the log,
`clientConnected` or `serverBound`; `waitingForReply` becomes false exactly
when it was true, `clientConnected` was true and the receive returned a
message, and keeps its value otherwise (nothing received, or a throw). -/
theorem reply_poll_silent (s : Panel) (f : Frame) :
    (replyPoll s f).1.messageHistory = s.messageHistory ∧
      (replyPoll s f).1.clientConnected = s.clientConnected ∧
      (replyPoll s f).1.serverBound = s.serverBound ∧
      (replyPoll s f).1.waitingForReply =
        (if s.waitingForReply && s.clientConnected && f.replyRecv.hasMessage
          then false else s.waitingForReply) := by
  unfold replyPoll
  rcases s with ⟨log, cc, sb, w⟩
  cases cc <;> cases w <;> cases hr : f.replyRecv <;> simp [RecvResult.hasMessage]

/-- C9 (Clear History empties the log): the Clear History handler leaves the
log empty whatever it held, and leaves the three flags unchanged. -/
theorem clear_history_empties (s : Panel) (f : Frame) (h : f.clearPressed = true) :
    (clearHandler s f).1.messageHistory = [] ∧
      (clearHandler s f).1.clientConnected = s.clientConnected ∧
      (clearHandler s f).1.serverBound = s.serverBound ∧
      (clearHandler s f).1.waitingForReply = s.waitingForReply := by
  simp [clearHandler, h]

/-- Witness of C9: clearing a full log of ten entries. -/
theorem clear_history_empties_witness :
    Panel.full.messageHistory.length = 10 ∧
      (clearHandler Panel.full { Frame.idle with clearPressed := true }).1.messageHistory = [] ∧
      (clearHandler Panel.full { Frame.idle with clearPressed := true }).1.clientConnected =
        Panel.full.clientConnected ∧
      (clearHandler Panel.full { Frame.idle with clearPressed := true }).1.serverBound =
        Panel.full.serverBound ∧
      (clearHandler Panel.full { Frame.idle with clearPressed := true }).1.waitingForReply =
        Panel.full.waitingForReply :=
  ⟨by decide, clear_history_empties Panel.full { Frame.idle with clearPressed := true } rfl⟩

/-- C10 (flag invariant): in every state of every run from the initial state,
`waitingForReply` implies `clientConnected`; and no step ever sets
`clientConnected` or `serverBound` back to false, neither within a frame nor
along a run, a failed reconnect or rebind included. -/
theorem flag_invariant :
    (∀ fs, ∀ t ∈ trace Panel.init fs, t.waitingForReply = true → t.clientConnected = true) ∧
      (∀ h ∈ handlers, ∀ s f,
        (s.clientConnected = true → (h s f).1.clientConnected = true) ∧
          (s.serverBound = true → (h s f).1.serverBound = true)) ∧
      (∀ s fs, ∀ t ∈ trace s fs,
        (s.clientConnected = true → t.clientConnected = true) ∧
          (s.serverBound = true → t.serverBound = true)) := by
  refine ⟨?_, ?_, ?_⟩
  · intro fs t ht
    have h0 : Panel.init.waitingForReply = true → Panel.init.clientConnected = true := by
      simp [Panel.init]
    have key := run_inv (fun p => p.waitingForReply = true → p.clientConnected = true)
      (fun _ => True) (fun _ => True)
      (fun f _ h hh p hp => ⟨handler_flags f h hh p hp, fun _ _ => trivial⟩)
      Panel.init h0 fs (fun _ _ => trivial)
    simp only [trace, List.mem_cons] at ht
    rcases ht with rfl | ht
    · exact h0
    · exact key.2.1 t ht
  · intro h hh s f
    exact handler_keeps_flags f h hh s
  · intro s fs t ht
    have key := run_inv
      (fun p => (s.clientConnected = true → p.clientConnected = true) ∧
        (s.serverBound = true → p.serverBound = true))
      (fun _ => True) (fun _ => True)
      (fun f _ h hh p hp =>
        ⟨⟨fun hc => (handler_keeps_flags f h hh p).1 (hp.1 hc),
          fun hb => (handler_keeps_flags f h hh p).2 (hp.2 hb)⟩, fun _ _ => trivial⟩)
      s ⟨id, id⟩ fs (fun _ _ => trivial)
    simp only [trace, List.mem_cons] at ht
    rcases ht with rfl | ht
    · exact ⟨id, id⟩
    · exact key.2.1 t ht

/-- Witness of C10: a reconnect and a rebind that both fail leave
`clientConnected` and `serverBound` true. -/
theorem flag_invariant_witness :
    (connectHandler Panel.full
        { Frame.idle with connectPressed := true,
                          connectResult := .threw "Invalid argument" }).1.clientConnected = true ∧
      (startHandler Panel.full
        { Frame.idle with startPressed := true,
                          bindResult := .threw "Address already in use" }).1.serverBound = true :=
  ⟨(flag_invariant.2.1 connectHandler (by simp [handlers]) _ _).1 rfl,
    (flag_invariant.2.1 startHandler (by simp [handlers]) _ _).2 rfl⟩

/-- Refutation of C4 as stated: after a successful Send no reply is ever
received, yet a successful press of Connect as Client sets `waitingForReply`
back to false, and the Send pressed in the same frame is accepted: a second
message goes to the client socket and a second entry tagged as sent is
appended. -/
theorem awaiting_reply_reset_by_reconnect :
    (NetworkWindow Panel.init Frame.sendFirst).waitingForReply = true ∧
      Frame.sendFirst.replyRecv.hasMessage = false ∧
      Frame.reconnectSendSecond.replyRecv.hasMessage = false ∧
      (connectHandler (NetworkWindow Panel.init Frame.sendFirst)
        Frame.reconnectSendSecond).1.waitingForReply = false ∧
      SockOp.clientSend "second" ∈
        frameOps (NetworkWindow Panel.init Frame.sendFirst) Frame.reconnectSendSecond ∧
      (run Panel.init [Frame.sendFirst, Frame.reconnectSendSecond]).messageHistory =
        ["[SENT] first", "[SENT] second"] := by
  decide

/-- C4 as amended (awaiting-reply persists until the reply arrives or the client
reconnects): once an enabled Send has not thrown, `waitingForReply` is true,
and it stays true in every later state, through the rest of that frame and
through all following frames, as long as no reply poll receives a message and
no press of Connect as Client succeeds; in all those states a press of Send is
a no-op, no entry tagged as sent is added to the log, and no message is handed
to the client socket. -/
theorem awaiting_reply_persists (s0 : Panel) (f0 : Frame) (fs : List Frame)
    (hpress : f0.sendPressed = true) (hcc : s0.clientConnected = true)
    (hw : s0.waitingForReply = false) (hsend : ∀ what, f0.sendResult ≠ .threw what)
    (h0 : f0.replyRecv.hasMessage = false)
    (hfs : ∀ f ∈ fs, f.replyRecv.hasMessage = false ∧ reconnectSucceeds f = false) :
    (sendHandler s0 f0).1.waitingForReply = true ∧
      (∀ t ∈ (sendHandler s0 f0).1 ::
            ((runSteps f0 afterSendSteps (sendHandler s0 f0).1).2.1 ++
              later (runSteps f0 afterSendSteps (sendHandler s0 f0).1).1 fs),
          t.waitingForReply = true ∧ (∀ g, sendHandler t g = (t, [])) ∧
            sentCount t.messageHistory ≤ sentCount (sendHandler s0 f0).1.messageHistory) ∧
      ∀ o ∈ (runSteps f0 afterSendSteps (sendHandler s0 f0).1).2.2 ++
            runOps (runSteps f0 afterSendSteps (sendHandler s0 f0).1).1 fs,
          o.isClientSend = false := by
  have hs : Awaiting (sentCount (sendHandler s0 f0).1.messageHistory) (sendHandler s0 f0).1 := by
    unfold sendHandler
    cases hr : f0.sendResult with
    | sent n => simp [Awaiting, hpress, hcc, hw]
    | again => simp [Awaiting, hpress, hcc, hw]
    | threw what => exact absurd hr (hsend what)
  have hrest := runSteps_inv (Awaiting (sentCount (sendHandler s0 f0).1.messageHistory))
    (fun o => o.isClientSend = false) f0 afterSendSteps
    (fun h hh t ht => afterSendSteps_awaiting _ f0 h0 h hh t ht) _ hs
  have hrun := run_inv (Awaiting (sentCount (sendHandler s0 f0).1.messageHistory))
    (fun o => o.isClientSend = false)
    (fun f => f.replyRecv.hasMessage = false ∧ reconnectSucceeds f = false)
    (fun f hq h hh t ht => handlers_awaiting _ f hq h hh t ht) _ hrest.1 fs hfs
  have hno : ∀ t, Awaiting (sentCount (sendHandler s0 f0).1.messageHistory) t →
      t.waitingForReply = true ∧ (∀ g, sendHandler t g = (t, [])) ∧
        sentCount t.messageHistory ≤ sentCount (sendHandler s0 f0).1.messageHistory := by
    intro t ht
    refine ⟨ht.1, fun g => ?_, ht.2.2⟩
    unfold sendHandler
    simp [ht.1]
  refine ⟨hs.1, ?_, ?_⟩
  · intro t ht
    simp only [List.mem_cons, List.mem_append] at ht
    rcases ht with rfl | ht | ht
    · exact hno _ hs
    · exact hno _ (hrest.2.1 t ht)
    · exact hno _ (hrun.2.1 t ht)
  · intro o ho
    simp only [List.mem_append] at ho
    rcases ho with ho | ho
    · exact hrest.2.2 o ho
    · exact hrun.2.2 o ho

/-- Witness of the amended C4: after `first` is sent, two frames in which Send
is pressed again and a reconnect fails leave the panel awaiting the reply. -/
theorem awaiting_reply_persists_witness :
    (sendHandler Panel.ready Frame.sendFirst).1.waitingForReply = true ∧
      (∀ t ∈ (sendHandler Panel.ready Frame.sendFirst).1 ::
            ((runSteps Frame.sendFirst afterSendSteps
                (sendHandler Panel.ready Frame.sendFirst).1).2.1 ++
              later (runSteps Frame.sendFirst afterSendSteps
                (sendHandler Panel.ready Frame.sendFirst).1).1
                [Frame.pressAgain, Frame.pressAgain]),
          t.waitingForReply = true ∧ (∀ g, sendHandler t g = (t, [])) ∧
            sentCount t.messageHistory ≤
              sentCount (sendHandler Panel.ready Frame.sendFirst).1.messageHistory) ∧
      ∀ o ∈ (runSteps Frame.sendFirst afterSendSteps
                (sendHandler Panel.ready Frame.sendFirst).1).2.2 ++
            runOps (runSteps Frame.sendFirst afterSendSteps
                (sendHandler Panel.ready Frame.sendFirst).1).1
              [Frame.pressAgain, Frame.pressAgain],
          o.isClientSend = false :=
  awaiting_reply_persists Panel.ready Frame.sendFirst [Frame.pressAgain, Frame.pressAgain]
    (by decide) (by decide) (by decide) (fun what h => by simp [Frame.sendFirst] at h)
    (by decide) (by decide)

/-- Refutation of C5 as stated: a bound server receives `hello` and the
acknowledging `send` returns the empty result, or throws; the entry is
appended to the log, the one `send` is issued, and no reply is sent. -/
theorem request_logged_without_reply :
    Panel.bound.serverBound = true ∧
      (Frame.receiveHello "tcp://0.0.0.0:5555").requestRecv = .got "hello" ∧
      (serverPoll Panel.bound
          { Frame.receiveHello "tcp://0.0.0.0:5555" with ackResult := .again }).1.messageHistory =
        ["[RECEIVED from 0.0.0.0:5555] hello"] ∧
      repliesSent Panel.bound
          { Frame.receiveHello "tcp://0.0.0.0:5555" with ackResult := .again } = [] ∧
      (serverPoll Panel.bound
          { Frame.receiveHello "tcp://0.0.0.0:5555" with
            ackResult := .threw "Operation cannot be accomplished in current state" }
        ).1.messageHistory =
        ["[RECEIVED from 0.0.0.0:5555] hello"] ∧
      repliesSent Panel.bound
          { Frame.receiveHello "tcp://0.0.0.0:5555" with
            ackResult := .threw "Operation cannot be accomplished in current state" } = [] := by
  decide

/-- C5 as amended (one acknowledgment attempted and one log entry per received
request): when the server is bound and its receive returns a message, the
server poll appends exactly one entry, which begins with `[RECEIVED from `,
and issues exactly one send on the server socket, whose payload is the three
characters `ACK`; the result of that send is ignored, so exactly one reply
`ACK` is sent when the send queues it and none when it returns the empty
result or throws, the entry staying in the log either way.  When the server
is not bound or the receive returns no message, the server poll changes
nothing, issues no send and sends no reply. -/
theorem one_ack_per_request (s : Panel) (f : Frame) :
    (s.serverBound = true → ∀ p, f.requestRecv = .got p →
        (∃ entry, beginsWith "[RECEIVED from " entry = true ∧
          (serverPoll s f).1 =
            { s with messageHistory := pushMessage s.messageHistory entry } ∧
          (serverPoll s f).1.messageHistory.getLast? = some entry) ∧
        (serverPoll s f).2.filter SockOp.isServerSend = [.serverSend "ACK"] ∧
        "ACK".length = 3 ∧
        repliesSent s f = (if f.ackResult.queued then ["ACK"] else [])) ∧
      ((s.serverBound = false ∨ f.requestRecv.hasMessage = false) →
        (serverPoll s f).1 = s ∧ (serverPoll s f).2.filter SockOp.isServerSend = [] ∧
          repliesSent s f = []) := by
  constructor
  · intro hb p hp
    refine ⟨⟨"[RECEIVED from " ++ (sourceInfo f.lastEndpoint ++ "] " ++ p), ?_, ?_, ?_⟩,
      ?_, rfl, ?_⟩
    · exact beginsWith_append _ _
    · simp [serverPoll, hb, hp, String.append_assoc]
    · simp [serverPoll, hb, hp, String.append_assoc, pushMessage_getLast]
    · simp [serverPoll, hb, hp, SockOp.isServerSend]
    · cases hq : f.ackResult.queued <;> simp [repliesSent, serverPoll, hb, hp, hq]
  · intro h
    unfold repliesSent serverPoll
    rcases h with h | h
    · simp [h]
    · cases hr : f.requestRecv <;> cases hsb : s.serverBound <;>
        simp_all [RecvResult.hasMessage, SockOp.isServerSend]

/-- Witness of the amended C5: a bound server with a full log receives `hello`
and its acknowledgment is queued; a panel whose server is not bound does
nothing. -/
theorem one_ack_per_request_witness :
    ((serverPoll Panel.full (Frame.receiveHello "tcp://0.0.0.0:5555")).2.filter
        SockOp.isServerSend = [.serverSend "ACK"] ∧
      "ACK".length = 3 ∧
      repliesSent Panel.full (Frame.receiveHello "tcp://0.0.0.0:5555") =
        (if (Frame.receiveHello "tcp://0.0.0.0:5555").ackResult.queued then ["ACK"] else [])) ∧
      (serverPoll Panel.ready (Frame.receiveHello "tcp://0.0.0.0:5555")).1 = Panel.ready ∧
      repliesSent Panel.ready (Frame.receiveHello "tcp://0.0.0.0:5555") = [] :=
  ⟨((one_ack_per_request Panel.full (Frame.receiveHello "tcp://0.0.0.0:5555")).1 rfl
      "hello" rfl).2,
    ((one_ack_per_request Panel.ready (Frame.receiveHello "tcp://0.0.0.0:5555")).2
      (Or.inl rfl)).1,
    ((one_ack_per_request Panel.ready (Frame.receiveHello "tcp://0.0.0.0:5555")).2
      (Or.inl rfl)).2.2⟩

/-- C6, the code at the failing input: Send is pressed on a connected panel
that awaits no reply and `send` returns the empty result (nothing was queued);
the handler appends an entry tagged as sent, no error entry, and sets
`waitingForReply`. -/
theorem send_not_queued_logged_as_sent :
    sendHandler Panel.ready { Frame.sendHello with sendResult := .again } =
        ({ messageHistory := ["[SENT] hello"], clientConnected := true, serverBound := false,
           waitingForReply := true }, [.clientSend "hello"]) ∧
      beginsWith "Send error: " "[SENT] hello" = false := by
  decide

/-- The part of C6 the code does implement: when the enabled `send` throws, the
last log entry is `Send error: ` followed by the text of the error, it is not
tagged as sent, and `waitingForReply` stays false. -/
theorem send_throw_logged (s : Panel) (f : Frame) (what : String)
    (hpress : f.sendPressed = true) (hcc : s.clientConnected = true)
    (hw : s.waitingForReply = false) (hsend : f.sendResult = .threw what) :
    (sendHandler s f).1.messageHistory.getLast? = some ("Send error: " ++ what) ∧
      beginsWith "Send error: " ("Send error: " ++ what) = true ∧
      beginsWith "[SENT] " ("Send error: " ++ what) = false ∧
      (sendHandler s f).1.waitingForReply = false := by
  refine ⟨?_, beginsWith_append _ _, send_error_not_sent _, ?_⟩
  · simp [sendHandler, hpress, hcc, hw, hsend, pushMessage_getLast]
  · simp [sendHandler, hpress, hcc, hw, hsend]

/-- Witness of `send_throw_logged`. -/
theorem send_throw_logged_witness :
    (sendHandler Panel.ready
        { Frame.sendHello with sendResult := .threw "Host unreachable" }).1.messageHistory.getLast? =
        some ("Send error: " ++ "Host unreachable") ∧
      beginsWith "Send error: " ("Send error: " ++ "Host unreachable") = true ∧
      beginsWith "[SENT] " ("Send error: " ++ "Host unreachable") = false ∧
      (sendHandler Panel.ready
        { Frame.sendHello with sendResult := .threw "Host unreachable" }).1.waitingForReply =
        false :=
  send_throw_logged Panel.ready { Frame.sendHello with sendResult := .threw "Host unreachable" }
    "Host unreachable" rfl rfl rfl rfl

/-- Refutation of the example in C7: the server is started on port 5555, which
binds `tcp://*:5555`, a client connects to `127.0.0.1:5555` and sends `hello`.
The label of the received entry comes from the endpoint of the server socket,
so the entry reads `0.0.0.0:5555` when the socket reports the wildcard address
as `tcp://0.0.0.0:5555`, and `*:5555` if it reported the address as bound; in
neither case is the entry `[RECEIVED from 127.0.0.1:5555] hello`. -/
theorem received_example_not_client_address :
    SockOp.serverBind "tcp://*:5555" ∈ frameOps Panel.init Frame.startBoth ∧
      SockOp.clientConnect "tcp://127.0.0.1:5555" ∈ frameOps Panel.init Frame.startBoth ∧
      (run Panel.init [Frame.startBoth, Frame.sendHello,
          Frame.receiveHello "tcp://0.0.0.0:5555"]).messageHistory =
        ["[SENT] hello", "[RECEIVED from 0.0.0.0:5555] hello"] ∧
      (run Panel.init [Frame.startBoth, Frame.sendHello,
          Frame.receiveHello "tcp://*:5555"]).messageHistory =
        ["[SENT] hello", "[RECEIVED from *:5555] hello"] ∧
      "[RECEIVED from 127.0.0.1:5555] hello" ∉
        (run Panel.init [Frame.startBoth, Frame.sendHello,
          Frame.receiveHello "tcp://0.0.0.0:5555"]).messageHistory ∧
      "[RECEIVED from 127.0.0.1:5555] hello" ∉
        (run Panel.init [Frame.startBoth, Frame.sendHello,
          Frame.receiveHello "tcp://*:5555"]).messageHistory := by
  decide

/-- C7 as amended (format of a received entry): for every payload `p` returned
by the receive of a bound server, the entry appended to the log is exactly
`[RECEIVED from ` ++ label ++ `] ` ++ `p`, where label is `local` when the
endpoint query throws and otherwise the part of the reported endpoint after
its first `://` (the endpoint itself when it has no `://`); the label is that
of the endpoint of the server socket, not the address of the client. -/
theorem received_entry_format (s : Panel) (f : Frame) (p : String)
    (hb : s.serverBound = true) (hr : f.requestRecv = .got p) :
    (serverPoll s f).1.messageHistory =
        pushMessage s.messageHistory
          ("[RECEIVED from " ++ sourceInfo f.lastEndpoint ++ "] " ++ p) ∧
      (f.lastEndpoint = none → sourceInfo f.lastEndpoint = "local") ∧
      (∀ e, f.lastEndpoint = some e → IsLabel e (sourceInfo f.lastEndpoint)) := by
  refine ⟨?_, ?_, ?_⟩
  · simp [serverPoll, hb, hr]
  · intro h
    simp [h, sourceInfo]
  · intro e h
    rw [h]
    exact sourceInfo_isLabel e

/-- Witness of the amended C7: the example of the specification with the
endpoint of a server bound to the wildcard address. -/
theorem received_entry_format_witness :
    (serverPoll (run Panel.init [Frame.startBoth, Frame.sendHello])
        (Frame.receiveHello "tcp://0.0.0.0:5555")).1.messageHistory =
      ["[SENT] hello", "[RECEIVED from 0.0.0.0:5555] hello"] :=
  (received_entry_format (run Panel.init [Frame.startBoth, Frame.sendHello])
    (Frame.receiveHello "tcp://0.0.0.0:5555") "hello" (by decide) rfl).1.trans (by decide)

end ChatPanel
